import Mathlib

/-!
Shallow embedding of the game1 backend (`src/server.js`): a record store of
games and chat messages, the capacity-gated join workflow, the room relay, and
the CORS origin check, together with theorems settling the specification
claims about them.
-/

namespace GameBackend

/-- Author subdocument shared by posts and chat messages (`{ id, name }`). -/
structure Author where
  id : String
  name : String
deriving DecidableEq

/-- A persisted Game record (`gameSchema`).  `gid` models the Mongo `_id`,
which the server assigns; `createdAt` is a server clock reading. -/
structure Game where
  gid : Nat
  title : String
  sport : String
  time : String
  location : String
  players : Int
  maxPlayers : Int
  createdAt : Nat
deriving DecidableEq

/-- A persisted ChatMessage record (`messageSchema`).  `mid` models the
Mongo `_id`. -/
structure ChatMessage where
  mid : Nat
  room : String
  author : Author
  text : String
  createdAt : Nat
deriving DecidableEq

/-- Request body of `POST /api/games`.  The handler destructures
`{ title, sport, time, players, location }`; a `maxPlayers` field may be
present in the JSON body but the handler never reads it. -/
structure CreateGameBody where
  title : String
  sport : String
  time : String
  location : String
  players : Option Int
  maxPlayers : Option Int
deriving DecidableEq

/-- The JavaScript expression `Number(players) || 0`: an absent value
(`Number(undefined)` is `NaN`, falsy) and the value `0` both yield `0`;
any other number is kept. -/
def jsNumberOr0 : Option Int → Int
  | none => 0
  | some v => if v = 0 then 0 else v

/-- The `POST /api/games` handler: builds a new Game from the body with
`players := Number(players) || 0` and a hard-coded `maxPlayers := 6`,
saves it, and responds with the created record.  The store assigns the id. -/
def createGame (store : List Game) (body : CreateGameBody) (now : Nat) :
    Game × List Game :=
  let g : Game :=
    { gid := store.length
      title := body.title
      sport := body.sport
      time := body.time
      location := body.location
      players := jsNumberOr0 body.players
      maxPlayers := 6
      createdAt := now }
  (g, store ++ [g])

/-- `Game.findById(id)`. -/
def findById (store : List Game) (id : Nat) : Option Game :=
  store.find? (fun g => g.gid == id)

/-- `game.save()`: write the (whole) in-memory document back over the stored
record with the same id. -/
def saveGame (store : List Game) (g : Game) : List Game :=
  store.map (fun x => if x.gid = g.gid then g else x)

/-- Failure outcomes of `PUT /api/games/:id/join`: 404 "Game not found" and
400 "Game is full". -/
inductive JoinError where
  | notFound
  | capacityExceeded
deriving DecidableEq

/-- Events the HTTP handlers emit to every connected socket
(`io.emit("update_game", game)`). -/
inductive ServerEvent where
  | updateGame (g : Game)
deriving DecidableEq

/-- The `PUT /api/games/:id/join` handler, run to completion in isolation:
look the game up; 404 if absent; 400 if `players >= maxPlayers`; otherwise
increment `players` by 1, save, emit `update_game`, and respond with the
updated game. -/
def joinGame (store : List Game) (id : Nat) :
    Except JoinError Game × List Game × List ServerEvent :=
  match findById store id with
  | none => (Except.error JoinError.notFound, store, [])
  | some game =>
    if game.maxPlayers ≤ game.players then
      (Except.error JoinError.capacityExceeded, store, [])
    else
      let g' : Game := { game with players := game.players + 1 }
      (Except.ok g', saveGame store g', [ServerEvent.updateGame g'])

/-- JavaScript falsiness of an optional string: `undefined` and `""` are
falsy (`!room`, `!msg?.room`). -/
def strFalsy : Option String → Bool
  | none => true
  | some s => s == ""

/-- Events delivered over socket.io to clients: `load_messages` goes to the
joining socket only (`socket.emit`); `chat_message` goes to every member of
the named room (`io.to(room).emit`). -/
inductive ClientEvent where
  | loadMessages (history : List ChatMessage)
  | chatBroadcast (room : String) (m : ChatMessage)
deriving DecidableEq

/-- Comparison the store uses for `.sort({ createdAt: 1 })`. -/
def timeLE (a b : ChatMessage) : Prop :=
  a.createdAt ≤ b.createdAt

instance : DecidableRel timeLE :=
  fun a b => inferInstanceAs (Decidable (a.createdAt ≤ b.createdAt))

instance : IsTotal ChatMessage timeLE :=
  ⟨fun a b => Nat.le_total a.createdAt b.createdAt⟩

instance : IsTrans ChatMessage timeLE :=
  ⟨fun _ _ _ hab hbc => Nat.le_trans hab hbc⟩

/-- `Message.find({ room }).sort({ createdAt: 1 })`: the room's messages in
ascending `createdAt` order, ties kept in insertion order (stable sort). -/
def sortedRoom (msgs : List ChatMessage) (r : String) : List ChatMessage :=
  List.insertionSort timeLE (msgs.filter (fun m => m.room == r))

/-- `Message.find({ room }).sort({ createdAt: 1 }).limit(50)`: the first 50
messages of the ascending order, i.e. the oldest ones. -/
def roomHistory (msgs : List ChatMessage) (r : String) : List ChatMessage :=
  (sortedRoom msgs r).take 50

/-- The `join_room` handler: no-op on a falsy room; otherwise join the room
(add it to the socket's membership set) and emit `load_messages` with the
room history to the joining socket only. -/
def joinRoom (msgs : List ChatMessage) (room : Option String)
    (membership : List String) : List String × List ClientEvent :=
  match room with
  | none => (membership, [])
  | some r =>
    if r = "" then (membership, [])
    else (r :: membership, [ClientEvent.loadMessages (roomHistory msgs r)])

/-- Payload of a `chat_message` socket event.  All four fields come from the
client; `createdAt` may be absent, in which case the schema default
`Date.now` fills it in at save time. -/
structure MsgPayload where
  room : Option String
  author : Author
  text : String
  createdAt : Option Nat
deriving DecidableEq

/-- The document `new Message(msg)` builds for a payload whose room is the
non-empty string `r`: the store assigns the id; `createdAt` is the client's
value when supplied, else the server clock (`Date.now` default). -/
def persistedMsg (msgs : List ChatMessage) (r : String) (p : MsgPayload)
    (now : Nat) : ChatMessage :=
  { mid := msgs.length
    room := r
    author := p.author
    text := p.text
    createdAt := p.createdAt.getD now }

/-- The `chat_message` handler: no-op on a falsy room; otherwise save the
message and, only if the save succeeded, broadcast the persisted record to
the room.  A failed save (`saveOk = false`) is caught and logged: nothing is
persisted, nothing is broadcast, and no error reaches the sender. -/
def chatMessage (msgs : List ChatMessage) (p : MsgPayload) (now : Nat)
    (saveOk : Bool) : List ChatMessage × List ClientEvent :=
  match p.room with
  | none => (msgs, [])
  | some r =>
    if r = "" then (msgs, [])
    else if saveOk then
      (msgs ++ [persistedMsg msgs r p now],
        [ClientEvent.chatBroadcast r (persistedMsg msgs r p now)])
    else (msgs, [])

/-- The CORS allow-list (`allowedOrigins`). -/
def allowedOrigins : List String :=
  ["http://localhost:5173", "https://game1-frontend.vercel.app"]

/-- `corsOptions.origin`: accept when the Origin header is falsy (absent or
empty, i.e. a non-cross-origin request) or on the allow-list; otherwise pass
`new Error("Not allowed by CORS")` to the callback. -/
def corsOriginCheck (origin : Option String) : Except String Unit :=
  match origin with
  | none => Except.ok ()
  | some o =>
    if o = "" ∨ o ∈ allowedOrigins then Except.ok ()
    else Except.error "Not allowed by CORS"

/-- The HTTP requests whose handlers mutate the game store. -/
inductive HttpReq where
  | createGameReq (body : CreateGameBody) (now : Nat)
  | joinGameReq (id : Nat)
deriving DecidableEq

/-- Responses of the modelled HTTP surface.  `corsError` is the error the
CORS middleware hands to `next`, which short-circuits routing. -/
inductive HttpResult where
  | corsError
  | gameCreated (g : Game)
  | gameJoined (g : Game)
  | joinFailed (e : JoinError)
deriving DecidableEq

/-- Route a request to its handler (business logic). -/
def dispatch (req : HttpReq) (store : List Game) :
    HttpResult × List Game × List ServerEvent :=
  match req with
  | HttpReq.createGameReq body now =>
    let p := createGame store body now
    (HttpResult.gameCreated p.1, p.2, [])
  | HttpReq.joinGameReq id =>
    match joinGame store id with
    | (Except.ok g, store', evs) => (HttpResult.gameJoined g, store', evs)
    | (Except.error e, store', evs) => (HttpResult.joinFailed e, store', evs)

/-- The request pipeline: `app.use(cors(corsOptions))` runs before every
route, so a failing origin check ends the request before any handler runs. -/
def handleHttp (origin : Option String) (req : HttpReq) (store : List Game) :
    HttpResult × List Game × List ServerEvent :=
  match corsOriginCheck origin with
  | Except.error _ => (HttpResult.corsError, store, [])
  | Except.ok _ => dispatch req store

/-!
Interleaved execution of two join requests.  The handler body has two `await`
points — `Game.findById(id)` and `game.save()` — so a request is a two-step
process: first read the document into a local variable, then (based only on
that local copy) either fail or write back the incremented copy.  The event
loop may interleave the steps of concurrent requests arbitrarily.
-/

/-- Progress of one in-flight join request: not yet started, holding the
result of its `findById` read, or finished with success flag (`true` = 200
response, `false` = 404/400 response). -/
inductive ReqPhase where
  | start
  | readDone (g : Option Game)
  | done (ok : Bool)
deriving DecidableEq

/-- Run one step of a join request against the current store, returning the
request's next phase and the (possibly updated) store.  This is the handler
body of `PUT /api/games/:id/join` split at its `await` boundary. -/
def joinStep (id : Nat) (store : List Game) : ReqPhase → ReqPhase × List Game
  | ReqPhase.start => (ReqPhase.readDone (findById store id), store)
  | ReqPhase.readDone none => (ReqPhase.done false, store)
  | ReqPhase.readDone (some g) =>
    if g.maxPlayers ≤ g.players then (ReqPhase.done false, store)
    else
      let g' : Game := { g with players := g.players + 1 }
      (ReqPhase.done true, saveGame store g')
  | ReqPhase.done ok => (ReqPhase.done ok, store)

/-- Shared state of two concurrent join requests for the same game id. -/
structure TwoJoin where
  store : List Game
  r1 : ReqPhase
  r2 : ReqPhase
deriving DecidableEq

/-- Run a schedule (`true` = advance request 1, `false` = advance request 2)
over the shared state. -/
def runSchedule (id : Nat) : List Bool → TwoJoin → TwoJoin
  | [], s => s
  | true :: rest, s =>
    let p := joinStep id s.store s.r1
    runSchedule id rest { store := p.2, r1 := p.1, r2 := s.r2 }
  | false :: rest, s =>
    let p := joinStep id s.store s.r2
    runSchedule id rest { store := p.2, r1 := s.r1, r2 := p.1 }

/-!
Serial reachability of game-store states through the two mutating handlers.
-/

/-- A serialized store-mutating operation. -/
inductive Op where
  | create (body : CreateGameBody) (now : Nat)
  | join (id : Nat)
deriving DecidableEq

/-- Apply one operation to the game store. -/
def applyOp (store : List Game) : Op → List Game
  | Op.create body now => (createGame store body now).2
  | Op.join id => (joinGame store id).2.1

/-- The store reached by running a sequence of operations from the empty
store the service starts with. -/
def runOps (ops : List Op) : List Game :=
  ops.foldl applyOp []

/-- The Game record invariant claimed by the spec. -/
def gameOk (g : Game) : Prop :=
  0 ≤ g.players ∧ g.players ≤ g.maxPlayers

instance (g : Game) : Decidable (gameOk g) :=
  inferInstanceAs (Decidable (0 ≤ g.players ∧ g.players ≤ g.maxPlayers))

/-- A creation request is in range when the initial player count it carries
(after `Number(players) || 0`) is between 0 and the fixed capacity 6. -/
def opOk : Op → Prop
  | Op.create body _ => 0 ≤ jsNumberOr0 body.players ∧ jsNumberOr0 body.players ≤ 6
  | Op.join _ => True

instance (op : Op) : Decidable (opOk op) :=
  match op with
  | Op.create body _ =>
    inferInstanceAs (Decidable (0 ≤ jsNumberOr0 body.players ∧ jsNumberOr0 body.players ≤ 6))
  | Op.join _ => inferInstanceAs (Decidable True)

/-! Concrete sample records used to instantiate the theorems. -/

/-- A sample author. -/
def alice : Author :=
  { id := "u1", name := "Alice" }

/-- A stored game with two of six slots taken. -/
def gameA : Game :=
  { gid := 0, title := "five-a-side", sport := "football", time := "18:00"
    location := "park", players := 2, maxPlayers := 6, createdAt := 0 }

/-- A stored game that is full. -/
def gameFull : Game :=
  { gid := 0, title := "", sport := "", time := "", location := ""
    players := 6, maxPlayers := 6, createdAt := 0 }

/-- A stored game one seat below capacity. -/
def gameAt5 : Game :=
  { gid := 0, title := "", sport := "", time := "", location := ""
    players := 5, maxPlayers := 6, createdAt := 0 }

/-- A creation body with no initial player count and no maxPlayers. -/
def okBody : CreateGameBody :=
  { title := "", sport := "", time := "", location := ""
    players := none, maxPlayers := none }

/-- A creation body carrying an initial player count above the capacity. -/
def badBody : CreateGameBody :=
  { title := "", sport := "", time := "", location := ""
    players := some 7, maxPlayers := none }

/-- The game `okBody` creates on an empty store at time 0. -/
def gNew0 : Game :=
  { gid := 0, title := "", sport := "", time := "", location := ""
    players := 0, maxPlayers := 6, createdAt := 0 }

/-- The game `badBody` creates on an empty store at time 0. -/
def badGame : Game :=
  { gid := 0, title := "", sport := "", time := "", location := ""
    players := 7, maxPlayers := 6, createdAt := 0 }

/-- A chat author for the sample room. -/
def chatAuthor : Author :=
  { id := "u", name := "n" }

/-- The k-th sample message of room "r": created at time k, inserted k-th. -/
def mkMsg (k : Nat) : ChatMessage :=
  { mid := k, room := "r", author := chatAuthor, text := "t", createdAt := k }

/-- 51 persisted messages of room "r", timestamps 0..50. -/
def msgs51 : List ChatMessage :=
  (List.range 51).map mkMsg

/-- A chat payload that carries its own client-chosen timestamp. -/
def payloadTs : MsgPayload :=
  { room := some "r1", author := alice, text := "hi", createdAt := some 123 }

/-- A chat payload with no timestamp of its own. -/
def payloadNoTs : MsgPayload :=
  { room := some "r1", author := alice, text := "hi", createdAt := none }

/-! Theorems. -/

/-- C1: the join handler fails with NotFound when the game id does not
resolve, fails with CapacityExceeded when `players >= maxPlayers`, and
otherwise increments `players` by exactly 1, persists the game, and returns
the updated record. -/
theorem joinGame_contract (store : List Game) (id : Nat) :
    (findById store id = none →
      joinGame store id = (Except.error JoinError.notFound, store, [])) ∧
    (∀ g, findById store id = some g → g.maxPlayers ≤ g.players →
      joinGame store id = (Except.error JoinError.capacityExceeded, store, [])) ∧
    (∀ g, findById store id = some g → g.players < g.maxPlayers →
      joinGame store id =
        (Except.ok { g with players := g.players + 1 },
          saveGame store { g with players := g.players + 1 },
          [ServerEvent.updateGame { g with players := g.players + 1 }])) := by
  refine ⟨fun h => ?_, fun g hg hge => ?_, fun g hg hlt => ?_⟩
  · simp [joinGame, h]
  · simp [joinGame, hg, hge]
  · simp [joinGame, hg, not_le.mpr hlt]

/-- Witness for C1: joining `gameA` (2 of 6 seats taken) succeeds and stores
the incremented record. -/
theorem joinGame_contract_witness :
    joinGame [gameA] 0 =
      (Except.ok { gameA with players := gameA.players + 1 },
        saveGame [gameA] { gameA with players := gameA.players + 1 },
        [ServerEvent.updateGame { gameA with players := gameA.players + 1 }]) :=
  (joinGame_contract [gameA] 0).2.2 gameA (by decide) (by decide)

/-- C7: a creation request with no explicit maxPlayers and no explicit
initial player count yields a game with `maxPlayers = 6` and `players = 0`. -/
theorem createGame_defaults (store : List Game) (body : CreateGameBody)
    (now : Nat) (hp : body.players = none) (_hm : body.maxPlayers = none) :
    (createGame store body now).1.maxPlayers = 6 ∧
    (createGame store body now).1.players = 0 := by
  simp [createGame, jsNumberOr0, hp]

/-- Witness for C7 at the body with both fields absent. -/
theorem createGame_defaults_witness :
    (createGame [] okBody 0).1.maxPlayers = 6 ∧
    (createGame [] okBody 0).1.players = 0 :=
  createGame_defaults [] okBody 0 rfl rfl

/-- C9: the create handler never reads `maxPlayers` from the request body:
the stored capacity is 6 for every body, and changing the body's
`maxPlayers` field changes nothing about the result. -/
theorem createGame_maxPlayers_fixed (store : List Game)
    (body : CreateGameBody) (now : Nat) :
    (createGame store body now).1.maxPlayers = 6 ∧
    (∀ m, createGame store { body with maxPlayers := m } now
        = createGame store body now) :=
  ⟨rfl, fun _ => rfl⟩

/-- C10: a join that fails (NotFound or CapacityExceeded) leaves the store
unchanged and emits no event; a successful join persists the returned game
and only then emits exactly one `update_game` broadcast. -/
theorem joinGame_failure_no_mutation (store : List Game) (id : Nat) :
    (∀ e, (joinGame store id).1 = Except.error e →
      (joinGame store id).2.1 = store ∧ (joinGame store id).2.2 = []) ∧
    (∀ g, (joinGame store id).1 = Except.ok g →
      (joinGame store id).2.1 = saveGame store g ∧
      (joinGame store id).2.2 = [ServerEvent.updateGame g]) := by
  rcases hfind : findById store id with _ | game
  · refine ⟨fun e _ => ?_, fun g hg => ?_⟩
    · simp [joinGame, hfind]
    · simp [joinGame, hfind] at hg
  · by_cases hcap : game.maxPlayers ≤ game.players
    · refine ⟨fun e _ => ?_, fun g hg => ?_⟩
      · simp [joinGame, hfind, hcap]
      · simp [joinGame, hfind, hcap] at hg
    · refine ⟨fun e he => ?_, fun g hg => ?_⟩
      · simp [joinGame, hfind, hcap] at he
      · simp only [joinGame, hfind] at hg ⊢
        rw [if_neg hcap] at hg ⊢
        cases hg
        exact ⟨rfl, rfl⟩

/-- Witness for C10: joining the full game `gameFull` fails and leaves the
one-game store intact with no broadcast. -/
theorem joinGame_failure_no_mutation_witness :
    (joinGame [gameFull] 0).2.1 = [gameFull] ∧
    (joinGame [gameFull] 0).2.2 = [] :=
  (joinGame_failure_no_mutation [gameFull] 0).1 JoinError.capacityExceeded rfl

/-- C2: the handler is NOT atomic.  With `gameAt5` (players = 5, maxPlayers
= 6, so `M - initialPlayers = 1`) and two concurrent join requests whose
`findById` reads both run before either `save`, both requests succeed — the
read-then-write increment is not a single atomic conditional update, so two
simultaneous joins at `players == maxPlayers - 1` can both succeed. -/
theorem joinGame_interleaved_double_success :
    (runSchedule 0 [true, false, true, false]
        { store := [gameAt5], r1 := ReqPhase.start, r2 := ReqPhase.start }).r1
      = ReqPhase.done true ∧
    (runSchedule 0 [true, false, true, false]
        { store := [gameAt5], r1 := ReqPhase.start, r2 := ReqPhase.start }).r2
      = ReqPhase.done true ∧
    (runSchedule 0 [true, false, true, false]
        { store := [gameAt5], r1 := ReqPhase.start, r2 := ReqPhase.start }).store
      = [{ gameAt5 with players := 6 }] ∧
    gameAt5.maxPlayers - gameAt5.players = 1 := by
  decide

/-- Overwriting one game's record keeps every store element either intact or
equal to the written document. -/
theorem mem_saveGame {store : List Game} {g x : Game}
    (hx : x ∈ saveGame store g) : x = g ∨ x ∈ store := by
  rcases List.mem_map.mp hx with ⟨y, hy, hxy⟩
  by_cases h : y.gid = g.gid
  · left
    rw [← hxy]
    simp [h]
  · right
    rw [← hxy]
    simpa [h] using hy

/-- One serialized operation preserves the game invariant, provided a
creation request carries an in-range initial count. -/
theorem gameOk_applyOp {store : List Game} {op : Op}
    (hstore : ∀ g ∈ store, gameOk g) (hop : opOk op) :
    ∀ g ∈ applyOp store op, gameOk g := by
  cases op with
  | create body now =>
    intro g hg
    simp only [applyOp, createGame, List.mem_append, List.mem_singleton] at hg
    rcases hg with hg | hg
    · exact hstore g hg
    · subst hg
      exact ⟨hop.1, hop.2⟩
  | join id =>
    intro g hg
    simp only [applyOp] at hg
    rcases hfind : findById store id with _ | game
    · rw [joinGame, hfind] at hg
      exact hstore g hg
    · have hmem : game ∈ store := List.mem_of_find?_eq_some hfind
      have hgame : gameOk game := hstore game hmem
      by_cases hcap : game.maxPlayers ≤ game.players
      · simp only [joinGame, hfind, if_pos hcap] at hg
        exact hstore g hg
      · simp only [joinGame, hfind, if_neg hcap] at hg
        rcases mem_saveGame hg with hgg | hgg
        · subst hgg
          refine ⟨?_, ?_⟩
          · have := hgame.1
            simp only [gameOk] at *
            omega
          · have : game.players < game.maxPlayers := lt_of_not_le hcap
            simp only [gameOk] at *
            omega
        · exact hstore g hgg

/-- Folding serialized operations from an invariant-respecting store keeps
the invariant. -/
theorem gameOk_foldl (ops : List Op) :
    ∀ store, (∀ g ∈ store, gameOk g) → (∀ op ∈ ops, opOk op) →
      ∀ g ∈ ops.foldl applyOp store, gameOk g := by
  induction ops with
  | nil =>
    intro store hs _ g hg
    exact hs g hg
  | cons op rest ih =>
    intro store hs hops g hg
    simp only [List.foldl_cons] at hg
    refine ih (applyOp store op) (gameOk_applyOp hs (hops op ?_))
      (fun o ho => hops o ?_) g hg
    · simp
    · simp [ho]

/-- C3 (amended): provided every creation request carries an initial player
count in `[0, 6]` (or none), every game reachable through the serialized
handlers satisfies `0 <= players <= maxPlayers`; and the join handler only
ever rewrites a stored game to its guarded `players + 1` increment, leaving
everything else intact. -/
theorem game_invariant_reachable (ops : List Op)
    (h : ∀ op ∈ ops, opOk op) :
    (∀ g ∈ runOps ops, gameOk g) ∧
    (∀ store id g', g' ∈ (joinGame store id).2.1 → g' ∈ store ∨
      ∃ g ∈ store, g' = { g with players := g.players + 1 } ∧
        g.players < g.maxPlayers) := by
  constructor
  · exact gameOk_foldl ops [] (by simp) h
  · intro store id g' hg'
    rcases hfind : findById store id with _ | game
    · rw [joinGame, hfind] at hg'
      exact Or.inl hg'
    · by_cases hcap : game.maxPlayers ≤ game.players
      · simp only [joinGame, hfind, if_pos hcap] at hg'
        exact Or.inl hg'
      · simp only [joinGame, hfind, if_neg hcap] at hg'
        rcases mem_saveGame hg' with hgg | hgg
        · exact Or.inr ⟨game, List.mem_of_find?_eq_some hfind, hgg,
            lt_of_not_le hcap⟩
        · exact Or.inl hgg

/-- Witness for C3 (amended): the store reached by one default creation
request contains only invariant-respecting games. -/
theorem game_invariant_reachable_witness : gameOk gNew0 :=
  (game_invariant_reachable [Op.create okBody 0] (by decide)).1 gNew0
    (by decide)

/-- Counterexample to C3 as stated: a creation request with initial player
count 7 immediately yields a reachable game with `players = 7 > 6 =
maxPlayers`, violating the invariant right after creation. -/
theorem game_invariant_violated_at_creation :
    badGame ∈ runOps [Op.create badBody 0] ∧ ¬ gameOk badGame := by
  decide

/-- C4 (amended): joining with a falsy room is a no-op; otherwise the room is
added to the caller's membership and the caller alone receives the room
history — the first 50 messages of the ascending `createdAt` order, i.e. the
50 OLDEST persisted messages, ordered oldest-to-newest: every delivered
message is no newer than every omitted one. -/
theorem joinRoom_contract (msgs : List ChatMessage) (room : Option String)
    (membership : List String) :
    (strFalsy room = true → joinRoom msgs room membership = (membership, [])) ∧
    (∀ r, room = some r → r ≠ "" →
      joinRoom msgs room membership =
        (r :: membership, [ClientEvent.loadMessages (roomHistory msgs r)]) ∧
      List.Sorted timeLE (roomHistory msgs r) ∧
      (∀ x ∈ roomHistory msgs r, ∀ y ∈ (sortedRoom msgs r).drop 50,
        timeLE x y)) := by
  constructor
  · intro hf
    cases room with
    | none => rfl
    | some r =>
      simp only [strFalsy, beq_iff_eq] at hf
      simp [joinRoom, hf]
  · intro r hr hne
    subst hr
    have hs : List.Sorted timeLE (sortedRoom msgs r) :=
      List.sorted_insertionSort timeLE (msgs.filter (fun m => m.room == r))
    refine ⟨by simp [joinRoom, hne], ?_, ?_⟩
    · exact List.Pairwise.sublist (List.take_sublist 50 (sortedRoom msgs r)) hs
    · intro x hx y hy
      have hsplit := List.take_append_drop 50 (sortedRoom msgs r)
      have hp : List.Pairwise timeLE
          ((sortedRoom msgs r).take 50 ++ (sortedRoom msgs r).drop 50) := by
        rw [hsplit]
        exact hs
      exact (List.pairwise_append.mp hp).2.2 x hx y hy

/-- Witness for C4 (amended): joining room "r1" on an empty history adds the
room and delivers the (empty) history to the caller only. -/
theorem joinRoom_contract_witness :
    joinRoom [] (some "r1") [] =
      (["r1"], [ClientEvent.loadMessages (roomHistory [] "r1")]) :=
  ((joinRoom_contract [] (some "r1") []).2 "r1" rfl (by decide)).1

/-- Counterexample to C4 as stated: with 51 messages in room "r" the newest
one (`mkMsg 50`) is NOT among the messages delivered on join — the handler
sorts ascending and takes the first 50, so it delivers the 50 oldest, not
the 50 most recent. -/
theorem joinRoom_oldest_not_newest :
    50 < (msgs51.filter (fun m => m.room == "r")).length ∧
    (∀ m ∈ msgs51, m.createdAt ≤ (mkMsg 50).createdAt) ∧
    joinRoom msgs51 (some "r") [] =
      (["r"], [ClientEvent.loadMessages (msgs51.take 50)]) ∧
    mkMsg 50 ∈ msgs51 ∧ mkMsg 50 ∉ msgs51.take 50 := by
  decide

/-- C5 (amended): a message sent to a non-empty room is persisted and the
broadcast to that room is exactly the persisted record, carrying the same
room, author and text plus the assigned id and timestamp; the stored
`createdAt` is the client's own value when the payload carries one, and the
server clock only when it does not. -/
theorem chatMessage_roundtrip (msgs : List ChatMessage) (p : MsgPayload)
    (now : Nat) (r : String) (hr : p.room = some r) (hne : r ≠ "") :
    chatMessage msgs p now true =
      (msgs ++ [persistedMsg msgs r p now],
        [ClientEvent.chatBroadcast r (persistedMsg msgs r p now)]) ∧
    (persistedMsg msgs r p now).room = r ∧
    (persistedMsg msgs r p now).author = p.author ∧
    (persistedMsg msgs r p now).text = p.text ∧
    (persistedMsg msgs r p now).createdAt = p.createdAt.getD now ∧
    (p.createdAt = none → (persistedMsg msgs r p now).createdAt = now) := by
  refine ⟨by simp [chatMessage, hr, hne], rfl, rfl, rfl, rfl, ?_⟩
  intro hc
  simp [persistedMsg, hc]

/-- Witness for C5 (amended): a payload without its own timestamp sent at
server time 7 is stored and broadcast with `createdAt = 7`. -/
theorem chatMessage_roundtrip_witness :
    chatMessage [] payloadNoTs 7 true =
      ([persistedMsg [] "r1" payloadNoTs 7],
        [ClientEvent.chatBroadcast "r1" (persistedMsg [] "r1" payloadNoTs 7)]) ∧
    (persistedMsg [] "r1" payloadNoTs 7).createdAt = 7 := by
  have h := chatMessage_roundtrip [] payloadNoTs 7 "r1" rfl (by decide)
  exact ⟨h.1, h.2.2.2.2.2 rfl⟩

/-- Counterexample to C5 as stated: the payload `createdAt` field is copied
into the document by `new Message(msg)`, so a client-supplied timestamp
(123) — not the server clock (999) — determines the stored `createdAt`. -/
theorem chatMessage_client_timestamp_kept :
    (chatMessage [] payloadTs 999 true).1 =
      [ChatMessage.mk 0 "r1" alice "hi" 123] ∧
    (123 : Nat) ≠ 999 := by
  decide

/-- C6: a chat message with an absent or empty room is silently dropped
(nothing persisted, nothing broadcast), and a failed save suppresses the
broadcast and leaves the store unchanged — the handler returns normally, so
no error reaches the sender or tears down the connection. -/
theorem chatMessage_failure_suppression (msgs : List ChatMessage)
    (p : MsgPayload) (now : Nat) (saveOk : Bool) :
    (strFalsy p.room = true → chatMessage msgs p now saveOk = (msgs, [])) ∧
    (saveOk = false → chatMessage msgs p now saveOk = (msgs, [])) := by
  constructor
  · intro hf
    rcases hp : p.room with _ | r
    · simp [chatMessage, hp]
    · rw [hp] at hf
      simp only [strFalsy, beq_iff_eq] at hf
      simp [chatMessage, hp, hf]
  · intro hs
    subst hs
    rcases hp : p.room with _ | r
    · simp [chatMessage, hp]
    · by_cases hr : r = "" <;> simp [chatMessage, hp, hr]

/-- Witness for C6: a failing save of a well-formed message persists nothing
and broadcasts nothing. -/
theorem chatMessage_failure_suppression_witness :
    chatMessage [] payloadNoTs 7 false = ([], []) :=
  (chatMessage_failure_suppression [] payloadNoTs 7 false).2 rfl

/-- C8: a request whose Origin header is a non-empty string outside the
allow-list is stopped by the CORS middleware — the store is untouched, no
event fires and no handler runs — while an allow-listed Origin reaches the
routed handler unchanged. -/
theorem cors_allowlist_boundary (o : String) (req : HttpReq)
    (store : List Game) :
    (o ≠ "" → o ∉ allowedOrigins →
      handleHttp (some o) req store = (HttpResult.corsError, store, [])) ∧
    (o ∈ allowedOrigins → handleHttp (some o) req store = dispatch req store) := by
  constructor
  · intro hne hmem
    simp [handleHttp, corsOriginCheck, hne, hmem]
  · intro hmem
    simp [handleHttp, corsOriginCheck, hmem]

/-- Witness for C8: a join request from an unlisted origin is rejected at
the boundary with the store intact. -/
theorem cors_allowlist_boundary_witness :
    handleHttp (some "https://evil.example") (HttpReq.joinGameReq 0) [] =
      (HttpResult.corsError, [], []) :=
  (cors_allowlist_boundary "https://evil.example" (HttpReq.joinGameReq 0) []).1
    (by decide) (by decide)

end GameBackend
